import Mathlib

/-!
Verification of the type-inference and column-mapping engine of
`uv_sql_tool/schema_generator.py`, as a shallow embedding in Lean 4.

Files are modelled as decoded content: a data file is `Option (List String)`
(`none` = nonexistent path, `some lines` = the lines of the file without
trailing newline characters); a dictionary file is
`Option (String → DecodeResult)`, mapping each attempted encoding name to
the outcome of decoding the file under that encoding.

The Python string primitives used by the code (`strip`, `split`, `lower`,
`startswith`, `endswith`, substring membership) are modelled by executable
functions on the character data of the string, so that every definition
can be evaluated by the kernel on concrete inputs.
-/

namespace UvSqlTool

/-! ### Models of the Python string primitives -/

/-- The characters stripped by Python `str.strip()` with no argument. -/
def isSpaceChar (c : Char) : Bool :=
  c = ' ' || c = '\t' || c = '\n' || c = '\r' || c = '\x0b' || c = '\x0c'

/-- Model of Python `s.strip()`: remove whitespace from both ends. -/
def pyStrip (s : String) : String :=
  ⟨(((s.data.dropWhile isSpaceChar).reverse).dropWhile isSpaceChar).reverse⟩

/-- Split a character list on a separator character, Python `str.split(sep)`
semantics: the empty input yields one empty field. -/
def splitChar (sep : Char) : List Char → List (List Char)
  | [] => [[]]
  | c :: rest =>
    let r := splitChar sep rest
    if c = sep then [] :: r
    else
      match r with
      | [] => [[c]]
      | h :: t => (c :: h) :: t

/-- Model of Python `s.split(sep)` for a one-character separator. -/
def pySplit (s : String) (sep : Char) : List String :=
  (splitChar sep s.data).map (fun cs => ⟨cs⟩)

/-- Model of Python `s.lower()`. -/
def pyLower (s : String) : String :=
  ⟨s.data.map Char.toLower⟩

/-- Model of Python `s.startswith(p)`. -/
def strStartsWith (s p : String) : Bool :=
  p.data.isPrefixOf s.data

/-- Model of Python `s.endswith(p)`. -/
def strEndsWith (s p : String) : Bool :=
  p.data.isSuffixOf s.data

/-- Occurrence of `pat` as a contiguous sublist of `cs`. -/
def hasSub (pat : List Char) : List Char → Bool
  | [] => pat.isEmpty
  | c :: rest => pat.isPrefixOf (c :: rest) || hasSub pat rest

/-- Model of Python `pat in s` for strings. -/
def strContains (s pat : String) : Bool :=
  hasSub pat.data s.data

/-- `containsStr s m` states that `m` occurs somewhere inside `s`. -/
def containsStr (s m : String) : Prop :=
  ∃ a b, s = a ++ m ++ b

/-- A single-quote character as a string (ASCII 39). -/
def sq : String := "\x27"

/-- Model of Python `s.replace(" ", "")`. -/
def stripSpaces (s : String) : String :=
  ⟨s.data.filter (fun c => c != ' ')⟩

/-! ### Per-value type detection: `_detect_data_type` -/

/-- Anchored shape match: pattern char `0` matches any ASCII digit, every
other pattern char matches itself literally. -/
def matchesShape : List Char → List Char → Bool
  | [], [] => true
  | p :: ps, c :: cs => (if p = '0' then c.isDigit else c = p) && matchesShape ps cs
  | _, _ => false

/-- Model of anchored `re.match(shape-pattern + dollar, s)`. -/
def shapeAnchored (shape s : String) : Bool :=
  matchesShape shape.data s.data

/-- Model of end-unanchored `re.match(shape-pattern, s)`:
the shape must match a prefix of `s`. -/
def shapePre (shape s : String) : Bool :=
  matchesShape shape.data (s.data.take shape.data.length)

/-- Model of `re.match(r^-?\d+$, value)`: optional minus sign, then one
or more digits, end of string. -/
def matchesInt (s : String) : Bool :=
  match s.data with
  | '-' :: rest => !rest.isEmpty && rest.all Char.isDigit
  | cs => !cs.isEmpty && cs.all Char.isDigit

/-- Numeric value of a digit list, most significant first. -/
def digitsVal (cs : List Char) : Nat :=
  cs.foldl (fun n c => 10 * n + (c.toNat - 48)) 0

/-- Model of Python `int(value)` on a string matching the integer pattern. -/
def intValue (s : String) : Int :=
  match s.data with
  | '-' :: rest => -(digitsVal rest : Int)
  | cs => (digitsVal cs : Int)

/-- Model of `re.match(r^-?\d+\.\d+$, value)`: optional minus sign, one or
more digits, a dot, one or more digits, end of string. -/
def matchesDecimal (s : String) : Bool :=
  let core := fun (cs : List Char) =>
    let intPart := cs.takeWhile Char.isDigit
    let rest := cs.dropWhile Char.isDigit
    !intPart.isEmpty &&
      (match rest with
       | '.' :: frac => !frac.isEmpty && frac.all Char.isDigit
       | _ => false)
  match s.data with
  | '-' :: rest => core rest
  | cs => core cs

def date_patterns : List String :=
  ["0000-00-00", "00/00/0000", "00-00-0000", "0000/00/00"]

def datetime_patterns : List String :=
  ["0000-00-00 00:00:00", "00/00/0000 00:00:00"]

/-- Model of `_detect_data_type` (schema_generator.py lines 9-61). -/
def _detect_data_type (value : String) : String :=
  if value = "" ∨ pyStrip value = "" then "NVARCHAR(255)"
  else
    let v := pyStrip value
    if matchesInt v then
      if -2147483648 ≤ intValue v ∧ intValue v ≤ 2147483647 then "INT" else "BIGINT"
    else if matchesDecimal v then "DECIMAL(18,4)"
    else if date_patterns.any (fun p => shapeAnchored p v) then "DATE"
    else if datetime_patterns.any (fun p => shapePre p v) then "DATETIME2"
    else if pyLower v ∈ ["true", "false", "1", "0", "yes", "no"] then "BIT"
    else
      if v.length ≤ 50 then "NVARCHAR(50)"
      else if v.length ≤ 255 then "NVARCHAR(255)"
      else if v.length ≤ 4000 then "NVARCHAR(4000)"
      else "NVARCHAR(MAX)"

/-! ### Per-column type resolution (`_analyze_column_data_types`, lines 113-146) -/

/-- The distinct elements of a list, keeping first occurrences in order:
the key set of a Python dict filled by iterating the list. -/
def firstSeen : List String → List String
  | [] => []
  | x :: xs => x :: (firstSeen xs).filter (fun y => y != x)

/-- The `type_counts` dict built at lines 115-117: keys in first-seen
order, each with its total number of occurrences. -/
def countsOf (types : List String) : List (String × Nat) :=
  (firstSeen types).map (fun k => (k, types.count k))

/-- One step of Python `max(type_counts, key=type_counts.get)`: keep the
earlier entry unless the later one is strictly larger. -/
def bestStep (best q : String × Nat) : String × Nat :=
  if best.2 < q.2 then q else best

/-- Python `max(type_counts, key=type_counts.get)`: the first key with
maximal count in iteration order. -/
def maxByCount : List (String × Nat) → String
  | [] => "NVARCHAR(255)"
  | p :: ps => (ps.foldl bestStep p).1

/-- Resolution of one column's final type from its per-row classifications
(schema_generator.py lines 115-137). -/
def resolveType (classifications : List String) : String :=
  let type_counts := countsOf classifications
  if type_counts.isEmpty then "NVARCHAR(255)"
  else if type_counts.any (fun p => strContains p.1 "NVARCHAR") then
    let string_types := (type_counts.map Prod.fst).filter (fun dt => strContains dt "NVARCHAR")
    if "NVARCHAR(MAX)" ∈ string_types then "NVARCHAR(MAX)"
    else if "NVARCHAR(4000)" ∈ string_types then "NVARCHAR(4000)"
    else if "NVARCHAR(255)" ∈ string_types then "NVARCHAR(255)"
    else "NVARCHAR(50)"
  else maxByCount type_counts

/-! ### Row sampling (`_analyze_column_data_types`, lines 86-108) -/

/-- Model of `[val.strip() for val in line.strip().split(pipe)]`. -/
def pipeVals (line : String) : List String :=
  (pySplit (pyStrip line) '|').map pyStrip

/-- A body row is well-formed when it is not blank and its field count
matches the header field count. -/
def wellFormedRow (names : List String) (line : String) : Bool :=
  !(pyStrip line == "") && (pipeVals line).length == names.length

/-- The sampling loop of lines 87-108: reads body lines in order, skips
blank lines and rows whose field count differs from the header, stops
after `budget` well-formed rows. -/
def sampleRows (names : List String) : Nat → List String → List (List String)
  | _, [] => []
  | 0, _ :: _ => []
  | budget + 1, line :: rest =>
    if pyStrip line = "" then sampleRows names (budget + 1) rest
    else if (pipeVals line).length ≠ names.length then sampleRows names (budget + 1) rest
    else pipeVals line :: sampleRows names budget rest

/-- The per-column classification lists accumulated in the `data_types`
dict: for a column *name*, the classifications of every sampled value
sitting under any header position carrying that name, in row-major
order (lines 102-106). -/
def columnEvidence (names : List String) (rows : List (List String)) (col : String) : List String :=
  (rows.map (fun values =>
    ((names.zip values).filter (fun p => p.1 == col)).map
      (fun p => _detect_data_type p.2))).flatten

/-! ### Name sanitization (lines 139-142 and 378-381) -/

/-- Model of `re.sub` replacing every character outside letters, digits
and underscore with an underscore. -/
def pyCleanName (name : String) : String :=
  ⟨name.data.map (fun c => if c.isAlpha || c.isDigit || c = '_' then c else '_')⟩

/-- Cleaning a column name for SQL: substitute illegal characters, then
test `clean[0].isdigit()` — which raises an IndexError on an empty
name, modelled as an `.error` result. -/
def sanitizeCol (name : String) : Except String String :=
  let clean := pyCleanName name
  match clean.data with
  | [] => .error "string index out of range"
  | c :: _ => .ok (if c.isDigit then "Col_" ++ clean else clean)

/-! ### `_analyze_column_data_types` assembled -/

/-- Header column names: first line, trimmed, split on the pipe character,
each field trimmed (line 80). -/
def headerNames (lines : List String) : List String :=
  (pySplit (pyStrip (lines.headD "")) '|').map pyStrip

/-- The sampled well-formed rows of a file under a given budget. -/
def sampledOf (lines : List String) (maxRows : Nat) : List (List String) :=
  sampleRows (headerNames lines) maxRows lines.tail

/-- The per-column loop of lines 114-144: resolve each header column's
type from its pooled evidence and sanitize its name; the sanitization
of an empty name raises, which aborts the whole analysis. -/
def buildColumns (allNames : List String) (rows : List (List String)) :
    List String → Except String (List (String × String))
  | [] => .ok []
  | n :: ns =>
    let finalType := resolveType (columnEvidence allNames rows n)
    match sanitizeCol n with
    | .error e => .error e
    | .ok clean =>
      match buildColumns allNames rows ns with
      | .error e => .error e
      | .ok rest => .ok ((clean, finalType) :: rest)

/-- Model of `_analyze_column_data_types` (lines 64-146). `none` models a
nonexistent path (FileNotFoundError); an empty or blank first line is
the empty-header ValueError; both surface as `.error`. -/
def _analyze_column_data_types (file : Option (List String)) (max_rows_to_analyze : Nat) :
    Except String (List (String × String)) :=
  match file with
  | none => .error "File not found"
  | some lines =>
    let header_line := pyStrip (lines.headD "")
    if header_line = "" then .error "File appears to be empty or has no header"
    else
      buildColumns (headerNames lines) (sampledOf lines max_rows_to_analyze) (headerNames lines)

/-! ### `generate_create_table_sql` (lines 149-195) -/

/-- The `src` table-name policy used at line 152 and line 345. -/
def applySrc (table_name : String) : String :=
  if strStartsWith table_name "src" then table_name else "src" ++ table_name

/-- One rendered column definition (lines 163-168). -/
def columnDef (i : Nat) (col : String × String) : String :=
  if i = 0 && (strContains (pyLower col.1) "id" || strEndsWith (pyLower col.1) "_id") then
    "    " ++ col.1 ++ " " ++ col.2 ++ " PRIMARY KEY"
  else
    "    " ++ col.1 ++ " " ++ col.2

/-- The fallback text of lines 185-195. -/
def createTableFallback (csv_file_path pt err : String) : String :=
  "\n-- ERROR: Could not analyze file " ++ csv_file_path ++ ": " ++ err ++
  "\n-- Creating basic table structure as fallback\n\nCREATE TABLE " ++ pt ++
  " (\n    Id INT PRIMARY KEY,\n    Data NVARCHAR(MAX)\n);\n\n-- Please review the source file and adjust the table structure as needed\n"

/-- Model of `generate_create_table_sql` (lines 149-195). Total: every
internal failure is converted into the fallback text. -/
def generate_create_table_sql (file : Option (List String)) (csv_file_path table_name : String) : String :=
  let pt := applySrc table_name
  match _analyze_column_data_types file 100 with
  | .error e => createTableFallback csv_file_path pt e
  | .ok columns =>
    if columns.isEmpty then
      createTableFallback csv_file_path pt "No columns could be determined from the file"
    else
      "\nCREATE TABLE " ++ pt ++ " (\n" ++
      String.intercalate ",\n" (columns.enum.map (fun p => columnDef p.1 p.2)) ++
      "\n);\n\n-- Table created from file: " ++ csv_file_path ++
      "\n-- Columns analyzed: " ++ toString columns.length ++
      "\n-- Column details:\n" ++
      String.intercalate "\n" (columns.map (fun c => "-- " ++ c.1 ++ ": " ++ c.2)) ++
      "\n"

/-! ### The Mapping Resolver: `_parse_mapping_file` (lines 242-312) -/

/-- A resolved column mapping row (the dicts appended at lines 269-273
and 292-296). -/
structure Mapping where
  spanish_name : String
  english_name : String
  field_type : String
deriving DecidableEq

/-- Outcome of decoding the dictionary file under one encoding: either
the full list of lines, or the lines decoded before a
UnicodeDecodeError was raised partway through the file. -/
inductive DecodeResult where
  | ok (lines : List String)
  | truncated (lines : List String)
deriving DecidableEq

/-- Field splitter for one CSV record, standard quoted-field semantics
(model of the `csv` module on single-line records). -/
def splitCsvAux : List Char → Bool → List Char → List String → List String
  | [], _, cur, acc => (String.mk cur.reverse :: acc).reverse
  | '"' :: '"' :: cs, true, cur, acc => splitCsvAux cs true ('"' :: cur) acc
  | '"' :: cs, true, cur, acc => splitCsvAux cs false cur acc
  | '"' :: cs, false, cur, acc => splitCsvAux cs true cur acc
  | c :: cs, inQ, cur, acc =>
    if c = ',' && !inQ then splitCsvAux cs inQ [] (String.mk cur.reverse :: acc)
    else splitCsvAux cs inQ (c :: cur) acc

def splitCsvLine (line : String) : List String :=
  splitCsvAux line.data false [] []

/-- Whether a character occurs in a string. -/
def strHasChar (s : String) (c : Char) : Bool :=
  s.data.contains c

/-- Format detection at line 259: comma present and no pipe character in
the first line means CSV, otherwise pipe-delimited. -/
def isCsvFormat (first_line : String) : Bool :=
  strHasChar first_line ',' && !(strHasChar first_line '|')

/-- Python truthiness of an optional string: `None` and the empty string
are falsy. -/
def pyTruthy (o : Option String) : Bool :=
  match o with
  | none => false
  | some s => s != ""

/-- Python `a or b` on optional strings. -/
def pyOr (a b : Option String) : Option String :=
  if pyTruthy a then a else b

/-- `csv.DictReader` row lookup: the row is padded with `none` (restval)
up to the header length; a key absent from the header yields `none`;
on duplicate header names the last assignment wins. -/
def dictRowGet (header row : List String) (key : String) : Option String :=
  let padded := row.map some ++ List.replicate (header.length - row.length) (none : Option String)
  match ((header.zip padded).filter (fun q => q.1 == key)).getLast? with
  | none => none
  | some q => q.2

/-- `dict(zip(header, values)).get(key)`: zip truncates at the shorter
list; on duplicate keys the last assignment wins. -/
def zipRowGet (header values : List String) (key : String) : Option String :=
  match ((header.zip values).filter (fun q => q.1 == key)).getLast? with
  | none => none
  | some q => some q.2

/-- The source-name alias chain of line 264. -/
def resolvedSpanishCsv (header row : List String) : Option String :=
  pyOr (dictRowGet header row "SGE Column Name")
    (pyOr (dictRowGet header row "Spanish Column Name") (dictRowGet header row "Source Column"))

/-- The target-name alias chain of line 265. -/
def resolvedEnglishCsv (header row : List String) : Option String :=
  pyOr (dictRowGet header row "English Column Name")
    (pyOr (dictRowGet header row "Target Column") (dictRowGet header row "English Name"))

/-- The declared-type alias chain of line 266. -/
def resolvedTypeCsv (header row : List String) : Option String :=
  pyOr (dictRowGet header row "Field type")
    (pyOr (dictRowGet header row "Data Type") (dictRowGet header row "Type"))

/-- Processing of one CSV dictionary row (lines 262-273): append a
mapping when both resolved names are truthy; the declared type
defaults to the literal String marker when falsy. -/
def processCsvRow (header row : List String) : Option Mapping :=
  let sp := resolvedSpanishCsv header row
  let en := resolvedEnglishCsv header row
  let ft := resolvedTypeCsv header row
  if pyTruthy sp && pyTruthy en then
    some ⟨pyStrip (sp.getD ""), pyStrip (en.getD ""),
          if pyTruthy ft then pyStrip (ft.getD "") else "String"⟩
  else none

/-- The CSV branch of `_parse_mapping_file` (lines 260-273): first line
is the header, empty lines produce no row. -/
def parseCsvLines (lines : List String) : List Mapping :=
  match lines with
  | [] => []
  | h :: rest =>
    let header := splitCsvLine h
    rest.filterMap (fun l => if l = "" then none else processCsvRow header (splitCsvLine l))

/-- Processing of one pipe-delimited dictionary row (lines 284-296):
skipped when it has fewer than 3 fields; alias lookup falls back to
positional fields (source = 3rd, target = 4th, type = 2nd). -/
def processPipeRow (header : List String) (line : String) : Option Mapping :=
  let values := pipeVals line
  if values.length ≥ 3 then
    let sp := pyOr (zipRowGet header values "SGE Column Name")
      (if values.length > 2 then values[2]? else none)
    let en := pyOr (zipRowGet header values "English Column Name")
      (if values.length > 3 then values[3]? else none)
    let ft := pyOr (zipRowGet header values "Field type")
      (if values.length > 1 then values[1]? else some "String")
    if pyTruthy sp && pyTruthy en then
      some ⟨pyStrip (sp.getD ""), pyStrip (en.getD ""),
            if pyTruthy ft then pyStrip (ft.getD "") else "String"⟩
    else none
  else none

/-- The pipe branch of `_parse_mapping_file` (lines 275-296): an empty
file raises the Empty-dictionary ValueError, otherwise the first line
is the header and blank lines are skipped. -/
def parsePipeLines (lines : List String) : Except String (List Mapping) :=
  match lines with
  | [] => .error "Empty dictionary file"
  | h :: rest =>
    let header := pipeVals h
    .ok (rest.filterMap (fun l => if pyStrip l = "" then none else processPipeRow header l))

def encodings_to_try : List String :=
  ["utf-8", "utf-8-sig", "latin1", "cp1252", "iso-8859-1"]

/-- The encoding-retry loop of lines 252-307, carrying the `mappings`
accumulator, which is *not* cleared between attempts. A decode error
on the very first read moves to the next encoding; in the CSV branch
the rows decoded before a mid-file decode error are appended and kept;
in the pipe branch `readlines` is strict, so a truncated decode
appends nothing; a non-decode exception (empty file in the pipe
branch) is re-raised wrapped and aborts the whole parse. After a fully
successful attempt the loop stops as soon as the accumulator is
non-empty. -/
def parseAttempts (decode : String → DecodeResult) :
    List String → List Mapping → Except String (List Mapping)
  | [], _ => .error "Could not parse dictionary file with any supported encoding"
  | enc :: rest, acc =>
    match decode enc with
    | .truncated [] => parseAttempts decode rest acc
    | .ok [] => .error "Error reading dictionary file: Empty dictionary file"
    | .truncated (l :: ls) =>
      if isCsvFormat l then parseAttempts decode rest (acc ++ parseCsvLines (l :: ls))
      else parseAttempts decode rest acc
    | .ok (l :: ls) =>
      if isCsvFormat l then
        let acc' := acc ++ parseCsvLines (l :: ls)
        if acc'.isEmpty then parseAttempts decode rest acc' else .ok acc'
      else
        match parsePipeLines (l :: ls) with
        | .error e => .error ("Error reading dictionary file: " ++ e)
        | .ok ms =>
          let acc' := acc ++ ms
          if acc'.isEmpty then parseAttempts decode rest acc' else .ok acc'

/-- Model of `_parse_mapping_file` (lines 242-312). `none` models a
nonexistent dictionary path. -/
def _parse_mapping_file (file : Option (String → DecodeResult)) : Except String (List Mapping) :=
  match file with
  | none => .error "Dictionary file not found"
  | some decode => parseAttempts decode encodings_to_try []

/-! ### `_get_sql_data_type` and `generate_stored_procedure` (lines 315-444) -/

/-- Model of `_get_sql_data_type` (lines 315-328). -/
def _get_sql_data_type (field_type : String) : String :=
  let ft := pyStrip (pyLower field_type)
  if ft ∈ ["number", "numeric", "float", "decimal"] then "FLOAT"
  else if ft ∈ ["int", "integer"] then "INT"
  else if ft ∈ ["date", "datetime"] then "NVARCHAR(MAX)"
  else if ft ∈ ["bit", "boolean", "bool"] then "BIT"
  else "NVARCHAR(MAX)"

/-- The `stg` naming policy of line 334. -/
def stgName (table_name : String) : String :=
  if strStartsWith table_name "stg" then table_name else "stg" ++ table_name

/-- The source-table reference of lines 336-345: a name already carrying
`stg` is stripped of it before the `src` policy applies. -/
def sourceTableRef (table_name : String) : String :=
  if strStartsWith table_name "stg" then "src" ++ table_name.drop 3
  else applySrc table_name

/-- The cleaning loop over source names at lines 374-381: each Spanish
name goes through the same sanitization as §4.1, which raises on an
empty name. -/
def cleanSpanishList : List Mapping → Except String (List String)
  | [] => .ok []
  | m :: ms =>
    match sanitizeCol m.spanish_name with
    | .error e => .error e
    | .ok c =>
      match cleanSpanishList ms with
      | .error e => .error e
      | .ok cs => .ok (c :: cs)

/-- The successful stored-procedure text of lines 354-424. -/
def spSuccess (spn srcTable dictionary_path : String) (mappings : List Mapping)
    (cleans : List String) : String :=
  let create_table_sql := String.intercalate ",\n"
    ((mappings.map (fun m =>
        "        [" ++ stripSpaces m.english_name ++ "] " ++ _get_sql_data_type m.field_type)) ++
      ["        [DATAAREAID] NVARCHAR(4)"])
  let insert_columns_sql := String.intercalate ", "
    ((mappings.map (fun m => "[" ++ stripSpaces m.english_name ++ "]")) ++ ["[DATAAREAID]"])
  let select_sql := String.intercalate ",\n"
    (((mappings.zip cleans).map (fun p =>
        "        [" ++ p.2 ++ "] AS [" ++ stripSpaces p.1.english_name ++ "]")) ++
      ["        " ++ sq ++ "USMF" ++ sq ++ " AS [DATAAREAID]"])
  "\nCREATE PROCEDURE [dbo].[" ++ spn ++ "_StoredProcedure]\nAS\nBEGIN\n    SET NOCOUNT ON;\n    \n    -- Drop staging table if it exists\n    IF OBJECT_ID(" ++
  sq ++ "dbo." ++ spn ++ sq ++ ", " ++ sq ++ "U" ++ sq ++ ") IS NOT NULL\n        DROP TABLE dbo." ++
  spn ++ ";\n\n    -- Create staging table with English column names\n    CREATE TABLE dbo." ++
  spn ++ " (\n" ++ create_table_sql ++
  "\n    );\n\n    -- Insert data with column mapping from Spanish to English\n    INSERT INTO dbo." ++
  spn ++ " (\n        " ++ insert_columns_sql ++ "\n    )\n    SELECT\n" ++ select_sql ++
  "\n    FROM dbo." ++ srcTable ++
  ";\n    \n    -- Log completion\n    PRINT " ++ sq ++ "Data migration completed for " ++ spn ++ sq ++
  ";\n    PRINT " ++ sq ++ "Rows processed: " ++ sq ++ " + CAST(@@ROWCOUNT AS NVARCHAR(10));\nEND\n\n-- Generated from dictionary: " ++
  dictionary_path ++ "\n-- Source table: dbo." ++ srcTable ++ "\n-- Target table: dbo." ++ spn ++
  "\n-- Columns mapped: " ++ toString mappings.length ++ "\n"

/-- The fallback stored-procedure text of lines 428-444. -/
def spFallback (dictionary_path spn srcTable err : String) : String :=
  "\n-- ERROR: Could not parse dictionary file " ++ dictionary_path ++ ": " ++ err ++
  "\n-- Creating basic stored procedure as fallback\n\nCREATE PROCEDURE [dbo].[" ++ spn ++
  "_StoredProcedure]\nAS\nBEGIN\n    SET NOCOUNT ON;\n\n    -- Basic stored procedure logic (dictionary parsing failed)\n    -- Dictionary path: " ++
  dictionary_path ++ "\n    SELECT * FROM dbo." ++ srcTable ++
  ";\nEND\n\n-- Please review the dictionary file and ensure it has the correct format\n-- Expected columns: " ++
  sq ++ "SGE Column Name" ++ sq ++ ", " ++ sq ++ "English Column Name" ++ sq ++ ", " ++
  sq ++ "Field type" ++ sq ++ "\n"

/-- Model of `generate_stored_procedure` (lines 331-444). Total: every
internal failure is converted into the fallback text. -/
def generate_stored_procedure (table_name : String) (dict : Option (String → DecodeResult))
    (dictionary_path : String) : String :=
  let spn := stgName table_name
  let srcTable := sourceTableRef table_name
  match _parse_mapping_file dict with
  | .error e => spFallback dictionary_path spn srcTable e
  | .ok mappings =>
    if mappings.isEmpty then
      spFallback dictionary_path spn srcTable "No column mappings found in dictionary file"
    else
      match cleanSpanishList mappings with
      | .error e => spFallback dictionary_path spn srcTable e
      | .ok cleans => spSuccess spn srcTable dictionary_path mappings cleans

/-- The four string type tags producible by `_detect_data_type`. -/
def string_type_tags : List String :=
  ["NVARCHAR(50)", "NVARCHAR(255)", "NVARCHAR(4000)", "NVARCHAR(MAX)"]

/-- The specification-side notion from §4.1: the largest string type among
those observed, under the order MAX > 4000 > 255 > 50. -/
def largestStringType (types : List String) : String :=
  if "NVARCHAR(MAX)" ∈ types then "NVARCHAR(MAX)"
  else if "NVARCHAR(4000)" ∈ types then "NVARCHAR(4000)"
  else if "NVARCHAR(255)" ∈ types then "NVARCHAR(255)"
  else "NVARCHAR(50)"

/-! ### String-algebra helpers -/

theorem strAppend_assoc (a b c : String) : a ++ b ++ c = a ++ (b ++ c) := by
  apply String.ext
  simp only [String.data_append, List.append_assoc]

theorem strEmpty_append (s : String) : "" ++ s = s := by
  apply String.ext
  have h : ("" : String).data = [] := rfl
  simp only [String.data_append, h, List.nil_append]

theorem containsStr_intro (s a m b : String) (h : s = a ++ m ++ b) : containsStr s m :=
  ⟨a, b, h⟩

/-! ### Containment facts about the emitted templates -/

theorem ctf_contains_ERROR (p pt e : String) :
    containsStr (createTableFallback p pt e) "-- ERROR:" := by
  apply containsStr_intro _ "\n" _ (" Could not analyze file " ++ p ++ ": " ++ e ++
    "\n-- Creating basic table structure as fallback\n\nCREATE TABLE " ++ pt ++
    " (\n    Id INT PRIMARY KEY,\n    Data NVARCHAR(MAX)\n);\n\n-- Please review the source file and adjust the table structure as needed\n")
  have h1 : ("\n-- ERROR: Could not analyze file " : String) =
      "\n" ++ "-- ERROR:" ++ " Could not analyze file " := by decide
  rw [createTableFallback, h1]
  simp only [strAppend_assoc]

theorem ctf_contains_table (p pt e : String) :
    containsStr (createTableFallback p pt e)
      ("CREATE TABLE " ++ pt ++ " (\n    Id INT PRIMARY KEY,\n    Data NVARCHAR(MAX)\n);") := by
  apply containsStr_intro _
    ("\n-- ERROR: Could not analyze file " ++ p ++ ": " ++ e ++
     "\n-- Creating basic table structure as fallback\n\n") _
    ("\n\n-- Please review the source file and adjust the table structure as needed\n")
  have h1 : ("\n-- Creating basic table structure as fallback\n\nCREATE TABLE " : String) =
      "\n-- Creating basic table structure as fallback\n\n" ++ "CREATE TABLE " := by decide
  have h2 : (" (\n    Id INT PRIMARY KEY,\n    Data NVARCHAR(MAX)\n);\n\n-- Please review the source file and adjust the table structure as needed\n" : String) =
      " (\n    Id INT PRIMARY KEY,\n    Data NVARCHAR(MAX)\n);" ++
      "\n\n-- Please review the source file and adjust the table structure as needed\n" := by decide
  rw [createTableFallback, h1, h2]
  simp only [strAppend_assoc]

theorem spf_contains_ERROR (d s p e : String) :
    containsStr (spFallback d s p e) "-- ERROR:" := by
  apply containsStr_intro _ "\n" _ (" Could not parse dictionary file " ++ d ++ ": " ++ e ++
    "\n-- Creating basic stored procedure as fallback\n\nCREATE PROCEDURE [dbo].[" ++ s ++
    "_StoredProcedure]\nAS\nBEGIN\n    SET NOCOUNT ON;\n\n    -- Basic stored procedure logic (dictionary parsing failed)\n    -- Dictionary path: " ++
    d ++ "\n    SELECT * FROM dbo." ++ p ++
    ";\nEND\n\n-- Please review the dictionary file and ensure it has the correct format\n-- Expected columns: " ++
    sq ++ "SGE Column Name" ++ sq ++ ", " ++ sq ++ "English Column Name" ++ sq ++ ", " ++
    sq ++ "Field type" ++ sq ++ "\n")
  have h1 : ("\n-- ERROR: Could not parse dictionary file " : String) =
      "\n" ++ "-- ERROR:" ++ " Could not parse dictionary file " := by decide
  rw [spFallback, h1]
  simp only [strAppend_assoc]

theorem spf_contains_proc (d s p e : String) :
    containsStr (spFallback d s p e)
      ("CREATE PROCEDURE [dbo].[" ++ s ++ "_StoredProcedure]") := by
  apply containsStr_intro _
    ("\n-- ERROR: Could not parse dictionary file " ++ d ++ ": " ++ e ++
     "\n-- Creating basic stored procedure as fallback\n\n") _
    ("\nAS\nBEGIN\n    SET NOCOUNT ON;\n\n    -- Basic stored procedure logic (dictionary parsing failed)\n    -- Dictionary path: " ++
     d ++ "\n    SELECT * FROM dbo." ++ p ++
     ";\nEND\n\n-- Please review the dictionary file and ensure it has the correct format\n-- Expected columns: " ++
     sq ++ "SGE Column Name" ++ sq ++ ", " ++ sq ++ "English Column Name" ++ sq ++ ", " ++
     sq ++ "Field type" ++ sq ++ "\n")
  have h1 : ("\n-- Creating basic stored procedure as fallback\n\nCREATE PROCEDURE [dbo].[" : String) =
      "\n-- Creating basic stored procedure as fallback\n\n" ++ "CREATE PROCEDURE [dbo].[" := by decide
  have h2 : ("_StoredProcedure]\nAS\nBEGIN\n    SET NOCOUNT ON;\n\n    -- Basic stored procedure logic (dictionary parsing failed)\n    -- Dictionary path: " : String) =
      "_StoredProcedure]" ++
      "\nAS\nBEGIN\n    SET NOCOUNT ON;\n\n    -- Basic stored procedure logic (dictionary parsing failed)\n    -- Dictionary path: " := by decide
  rw [spFallback, h1, h2]
  simp only [strAppend_assoc]

theorem spf_contains_select (d s p e : String) :
    containsStr (spFallback d s p e) ("SELECT * FROM dbo." ++ p ++ ";") := by
  apply containsStr_intro _
    ("\n-- ERROR: Could not parse dictionary file " ++ d ++ ": " ++ e ++
     "\n-- Creating basic stored procedure as fallback\n\nCREATE PROCEDURE [dbo].[" ++ s ++
     "_StoredProcedure]\nAS\nBEGIN\n    SET NOCOUNT ON;\n\n    -- Basic stored procedure logic (dictionary parsing failed)\n    -- Dictionary path: " ++
     d ++ "\n    ") _
    ("\nEND\n\n-- Please review the dictionary file and ensure it has the correct format\n-- Expected columns: " ++
     sq ++ "SGE Column Name" ++ sq ++ ", " ++ sq ++ "English Column Name" ++ sq ++ ", " ++
     sq ++ "Field type" ++ sq ++ "\n")
  have h1 : ("\n    SELECT * FROM dbo." : String) = "\n    " ++ "SELECT * FROM dbo." := by decide
  have h2 : (";\nEND\n\n-- Please review the dictionary file and ensure it has the correct format\n-- Expected columns: " : String) =
      ";" ++ "\nEND\n\n-- Please review the dictionary file and ensure it has the correct format\n-- Expected columns: " := by decide
  rw [spFallback, h1, h2]
  simp only [strAppend_assoc]

theorem spf_contains_FROM (d s p e : String) :
    containsStr (spFallback d s p e) ("FROM dbo." ++ p ++ ";") := by
  apply containsStr_intro _
    ("\n-- ERROR: Could not parse dictionary file " ++ d ++ ": " ++ e ++
     "\n-- Creating basic stored procedure as fallback\n\nCREATE PROCEDURE [dbo].[" ++ s ++
     "_StoredProcedure]\nAS\nBEGIN\n    SET NOCOUNT ON;\n\n    -- Basic stored procedure logic (dictionary parsing failed)\n    -- Dictionary path: " ++
     d ++ "\n    SELECT * ") _
    ("\nEND\n\n-- Please review the dictionary file and ensure it has the correct format\n-- Expected columns: " ++
     sq ++ "SGE Column Name" ++ sq ++ ", " ++ sq ++ "English Column Name" ++ sq ++ ", " ++
     sq ++ "Field type" ++ sq ++ "\n")
  have h1 : ("\n    SELECT * FROM dbo." : String) = "\n    SELECT * " ++ "FROM dbo." := by decide
  have h2 : (";\nEND\n\n-- Please review the dictionary file and ensure it has the correct format\n-- Expected columns: " : String) =
      ";" ++ "\nEND\n\n-- Please review the dictionary file and ensure it has the correct format\n-- Expected columns: " := by decide
  rw [spFallback, h1, h2]
  simp only [strAppend_assoc]

theorem sps_contains_FROM (s p d : String) (ms : List Mapping) (cs : List String) :
    containsStr (spSuccess s p d ms cs) ("FROM dbo." ++ p ++ ";") := by
  apply containsStr_intro _
    ("\nCREATE PROCEDURE [dbo].[" ++ s ++ "_StoredProcedure]\nAS\nBEGIN\n    SET NOCOUNT ON;\n    \n    -- Drop staging table if it exists\n    IF OBJECT_ID(" ++
     sq ++ "dbo." ++ s ++ sq ++ ", " ++ sq ++ "U" ++ sq ++ ") IS NOT NULL\n        DROP TABLE dbo." ++
     s ++ ";\n\n    -- Create staging table with English column names\n    CREATE TABLE dbo." ++
     s ++ " (\n" ++ (String.intercalate ",\n"
       ((ms.map (fun m =>
           "        [" ++ stripSpaces m.english_name ++ "] " ++ _get_sql_data_type m.field_type)) ++
         ["        [DATAAREAID] NVARCHAR(4)"])) ++
     "\n    );\n\n    -- Insert data with column mapping from Spanish to English\n    INSERT INTO dbo." ++
     s ++ " (\n        " ++ (String.intercalate ", "
       ((ms.map (fun m => "[" ++ stripSpaces m.english_name ++ "]")) ++ ["[DATAAREAID]"])) ++
     "\n    )\n    SELECT\n" ++ (String.intercalate ",\n"
       (((ms.zip cs).map (fun q =>
           "        [" ++ q.2 ++ "] AS [" ++ stripSpaces q.1.english_name ++ "]")) ++
         ["        " ++ sq ++ "USMF" ++ sq ++ " AS [DATAAREAID]"])) ++
     "\n    ") _
    ("\n    \n    -- Log completion\n    PRINT " ++ sq ++ "Data migration completed for " ++ s ++ sq ++
     ";\n    PRINT " ++ sq ++ "Rows processed: " ++ sq ++ " + CAST(@@ROWCOUNT AS NVARCHAR(10));\nEND\n\n-- Generated from dictionary: " ++
     d ++ "\n-- Source table: dbo." ++ p ++ "\n-- Target table: dbo." ++ s ++
     "\n-- Columns mapped: " ++ toString ms.length ++ "\n")
  have h1 : ("\n    FROM dbo." : String) = "\n    " ++ "FROM dbo." := by decide
  have h2 : (";\n    \n    -- Log completion\n    PRINT " : String) =
      ";" ++ "\n    \n    -- Log completion\n    PRINT " := by decide
  rw [spSuccess, h1, h2]
  simp only [strAppend_assoc]

/-- On every path, the text emitted by `generate_stored_procedure`
references the source table derived by the naming policy in its FROM
clause. -/
theorem gsp_contains_FROM (t : String) (dict : Option (String → DecodeResult)) (d : String) :
    containsStr (generate_stored_procedure t dict d)
      ("FROM dbo." ++ sourceTableRef t ++ ";") := by
  unfold generate_stored_procedure
  cases hp : _parse_mapping_file dict with
  | error e => exact spf_contains_FROM d (stgName t) (sourceTableRef t) e
  | ok ms =>
    by_cases hm : ms.isEmpty
    · simp only [hm, if_pos]
      exact spf_contains_FROM d (stgName t) (sourceTableRef t) _
    · simp only [hm, Bool.false_eq_true, if_false]
      cases hc : cleanSpanishList ms with
      | error e => exact spf_contains_FROM d (stgName t) (sourceTableRef t) e
      | ok cs => exact sps_contains_FROM (stgName t) (sourceTableRef t) d ms cs

theorem gen_ct_error (df : Option (List String)) (p t e : String)
    (h : _analyze_column_data_types df 100 = .error e) :
    generate_create_table_sql df p t = createTableFallback p (applySrc t) e := by
  unfold generate_create_table_sql
  rw [h]

theorem gsp_error (t : String) (dict : Option (String → DecodeResult)) (d e : String)
    (h : _parse_mapping_file dict = .error e) :
    generate_stored_procedure t dict d = spFallback d (stgName t) (sourceTableRef t) e := by
  unfold generate_stored_procedure
  rw [h]

/-- C1: both top-level generation operations are total functions from
inputs to SQL text (they never raise), and whenever the internal
analysis or dictionary parsing fails, the returned text is the
fallback artifact: it contains the `-- ERROR:` marker, and a complete
fallback statement — the generic two-column CREATE TABLE, resp. the
SELECT * fallback CREATE PROCEDURE. -/
theorem c1_degraded_fallback (df : Option (List String)) (dict : Option (String → DecodeResult))
    (p d t : String) :
    (∀ e, _analyze_column_data_types df 100 = .error e →
      generate_create_table_sql df p t = createTableFallback p (applySrc t) e ∧
      containsStr (generate_create_table_sql df p t) "-- ERROR:" ∧
      containsStr (generate_create_table_sql df p t)
        ("CREATE TABLE " ++ applySrc t ++ " (\n    Id INT PRIMARY KEY,\n    Data NVARCHAR(MAX)\n);")) ∧
    (∀ e, _parse_mapping_file dict = .error e →
      generate_stored_procedure t dict d = spFallback d (stgName t) (sourceTableRef t) e ∧
      containsStr (generate_stored_procedure t dict d) "-- ERROR:" ∧
      containsStr (generate_stored_procedure t dict d)
        ("CREATE PROCEDURE [dbo].[" ++ stgName t ++ "_StoredProcedure]") ∧
      containsStr (generate_stored_procedure t dict d)
        ("SELECT * FROM dbo." ++ sourceTableRef t ++ ";")) := by
  constructor
  · intro e h
    have heq := gen_ct_error df p t e h
    refine ⟨heq, ?_, ?_⟩
    · rw [heq]; exact ctf_contains_ERROR p (applySrc t) e
    · rw [heq]; exact ctf_contains_table p (applySrc t) e
  · intro e h
    have heq := gsp_error t dict d e h
    refine ⟨heq, ?_, ?_, ?_⟩
    · rw [heq]; exact spf_contains_ERROR d (stgName t) (sourceTableRef t) e
    · rw [heq]; exact spf_contains_proc d (stgName t) (sourceTableRef t) e
    · rw [heq]; exact spf_contains_select d (stgName t) (sourceTableRef t) e

/-- Witness for C1: concrete degraded runs on a nonexistent data file and
a nonexistent dictionary path. -/
theorem c1_degraded_fallback_witness :
    _analyze_column_data_types none 100 = .error "File not found" ∧
    _parse_mapping_file none = .error "Dictionary file not found" ∧
    generate_create_table_sql none "data.txt" "Customers" =
      createTableFallback "data.txt" (applySrc "Customers") "File not found" ∧
    containsStr (generate_create_table_sql none "data.txt" "Customers") "-- ERROR:" ∧
    generate_stored_procedure "Customers" none "dict.csv" =
      spFallback "dict.csv" (stgName "Customers") (sourceTableRef "Customers")
        "Dictionary file not found" ∧
    containsStr (generate_stored_procedure "Customers" none "dict.csv") "-- ERROR:" ∧
    containsStr (generate_stored_procedure "Customers" none "dict.csv")
      ("SELECT * FROM dbo." ++ sourceTableRef "Customers" ++ ";") := by
  have h := c1_degraded_fallback none none "data.txt" "dict.csv" "Customers"
  have h1 := h.1 "File not found" rfl
  have h2 := h.2 "Dictionary file not found" rfl
  exact ⟨rfl, rfl, h1.1, h1.2.1, h2.1, h2.2.1, h2.2.2.2⟩

/-- C4 counterexample: the boundary value -2147483648 matches the integer
pattern and lies outside plus-minus 2147483647, yet it classifies as
INT, not BIGINT, because the code accepts the full signed 32-bit
range. -/
theorem c4_counterexample :
    _detect_data_type "-2147483648" = "INT" ∧ _detect_data_type "-2147483648" ≠ "BIGINT" := by
  refine ⟨by decide, by decide⟩

/-- C4 amended: for every string matching the integer pattern, the
classification is INT exactly when the value lies in the signed
32-bit range [-2147483648, 2147483647], and BIGINT otherwise; so
-2147483648 yields INT while 2147483648 and -2147483649 yield BIGINT. -/
theorem c4_int_range (s : String) (h : matchesInt (pyStrip s) = true) :
    _detect_data_type s =
      if -2147483648 ≤ intValue (pyStrip s) ∧ intValue (pyStrip s) ≤ 2147483647
      then "INT" else "BIGINT" := by
  have hne : ¬(s = "" ∨ pyStrip s = "") := by
    rintro (rfl | hh)
    · exact absurd h (by decide)
    · rw [hh] at h; exact absurd h (by decide)
  unfold _detect_data_type
  rw [if_neg hne, if_pos h]

/-- Witness for C4 amended, at the three boundary inputs. -/
theorem c4_int_range_witness :
    (_detect_data_type "-2147483648" =
      if -2147483648 ≤ intValue (pyStrip "-2147483648") ∧
         intValue (pyStrip "-2147483648") ≤ 2147483647 then "INT" else "BIGINT") ∧
    (_detect_data_type "2147483648" =
      if -2147483648 ≤ intValue (pyStrip "2147483648") ∧
         intValue (pyStrip "2147483648") ≤ 2147483647 then "INT" else "BIGINT") ∧
    (_detect_data_type "-2147483649" =
      if -2147483648 ≤ intValue (pyStrip "-2147483649") ∧
         intValue (pyStrip "-2147483649") ≤ 2147483647 then "INT" else "BIGINT") :=
  ⟨c4_int_range "-2147483648" (by decide), c4_int_range "2147483648" (by decide),
   c4_int_range "-2147483649" (by decide)⟩

/-- C6: the src-prefixing policy is idempotent, and for a table name
already carrying the stg marker, the source table referenced in the
emitted FROM clause is obtained by stripping stg and applying src to
the bare name. -/
theorem c6_naming_policy (n t : String) (dict : Option (String → DecodeResult)) (d : String)
    (h : strStartsWith t "stg" = true) :
    applySrc (applySrc n) = applySrc n ∧
    sourceTableRef t = "src" ++ t.drop 3 ∧
    containsStr (generate_stored_procedure t dict d)
      ("FROM dbo." ++ ("src" ++ t.drop 3) ++ ";") := by
  have hsrc : sourceTableRef t = "src" ++ t.drop 3 := by
    unfold sourceTableRef
    rw [if_pos h]
  refine ⟨?_, hsrc, ?_⟩
  · by_cases hn : strStartsWith n "src" = true
    · unfold applySrc
      rw [if_pos hn, if_pos hn]
    · unfold applySrc
      rw [if_neg hn]
      have hpre : strStartsWith ("src" ++ n) "src" = true := by
        unfold strStartsWith
        rw [String.data_append]
        rw [List.isPrefixOf_iff_prefix]
        exact List.prefix_append _ _
      rw [if_pos hpre]
  · rw [← hsrc]
    exact gsp_contains_FROM t dict d

/-- Witness for C6 at a concrete stg-named table and a nonexistent
dictionary. -/
theorem c6_naming_policy_witness :
    strStartsWith "stgOrders" "stg" = true ∧
    applySrc (applySrc "Orders") = applySrc "Orders" ∧
    sourceTableRef "stgOrders" = "src" ++ "stgOrders".drop 3 ∧
    containsStr (generate_stored_procedure "stgOrders" none "dict.csv")
      ("FROM dbo." ++ ("src" ++ "stgOrders".drop 3) ++ ";") := by
  have h := c6_naming_policy "Orders" "stgOrders" none "dict.csv" (by decide)
  exact ⟨by decide, h.1, h.2.1, h.2.2⟩

/-! ### Facts about type-count bookkeeping -/

theorem mem_firstSeen {x : String} : ∀ {l : List String}, x ∈ firstSeen l ↔ x ∈ l := by
  intro l
  induction l with
  | nil => simp [firstSeen]
  | cons a l ih =>
    by_cases hxa : x = a
    · subst hxa
      simp [firstSeen]
    · simp only [firstSeen, List.mem_cons, List.mem_filter, bne_iff_ne, ne_eq, hxa,
        false_or, not_false_eq_true, and_true]
      exact ih

theorem countsOf_ne_nil {t : String} {ts : List String} : countsOf (t :: ts) ≠ [] := by
  simp [countsOf, firstSeen]

/-- C2 counterexample: in the file with header a|b and rows 1|x and |x,
the non-blank sampled values of column a all classify as INT (and
resolve to INT on their own), yet the blank value in the second row
contributes string evidence and the column resolves to
NVARCHAR(255). -/
theorem c2_counterexample :
    _analyze_column_data_types (some ["a|b", "1|x", "|x"]) 100 =
      .ok [("a", "NVARCHAR(255)"), ("b", "NVARCHAR(50)")] ∧
    resolveType [_detect_data_type "1"] = "INT" :=
  ⟨rfl, rfl⟩

/-- C2 amended: a blank sampled value classifies as NVARCHAR(255) and
*does* contribute evidence: a column whose classifications consist of
INT together with the NVARCHAR(255) produced by at least one blank
value resolves to NVARCHAR(255), not INT. -/
theorem c2_blank_contributes (v : String) (evid : List String)
    (hv : pyStrip v = "")
    (hm : _detect_data_type v ∈ evid)
    (hrest : ∀ t ∈ evid, t = "INT" ∨ t = "NVARCHAR(255)") :
    _detect_data_type v = "NVARCHAR(255)" ∧ resolveType evid = "NVARCHAR(255)" := by
  have hdet : _detect_data_type v = "NVARCHAR(255)" := by
    unfold _detect_data_type
    rw [if_pos (Or.inr hv)]
  refine ⟨hdet, ?_⟩
  rw [hdet] at hm
  have hkeys : ∀ k ∈ (countsOf evid).map Prod.fst, k ∈ evid := by
    intro k hk
    simp only [countsOf, List.map_map, List.mem_map, Function.comp] at hk
    obtain ⟨k', hk', hkeq⟩ := hk
    rw [← hkeq]
    exact mem_firstSeen.1 hk'
  obtain ⟨t0, ts, hcons⟩ : ∃ t0 ts, evid = t0 :: ts := by
    cases evid with
    | nil => cases hm
    | cons a l => exact ⟨a, l, rfl⟩
  unfold resolveType
  rw [if_neg (by rw [hcons]; simp only [List.isEmpty_eq_true]; exact countsOf_ne_nil)]
  have hany : (countsOf evid).any (fun p => strContains p.1 "NVARCHAR") = true := by
    rw [List.any_eq_true]
    refine ⟨("NVARCHAR(255)", evid.count "NVARCHAR(255)"), ?_,
      show strContains "NVARCHAR(255)" "NVARCHAR" = true by decide⟩
    simp only [countsOf, List.mem_map]
    exact ⟨"NVARCHAR(255)", mem_firstSeen.2 hm, rfl⟩
  rw [if_pos hany]
  have hmemst : ∀ x : String, x ∈ ((countsOf evid).map Prod.fst).filter
      (fun dt => strContains dt "NVARCHAR") → x ∈ evid := by
    intro x hx
    exact hkeys x (List.mem_filter.1 hx).1
  have hMAX : "NVARCHAR(MAX)" ∉ ((countsOf evid).map Prod.fst).filter
      (fun dt => strContains dt "NVARCHAR") := by
    intro hx
    rcases hrest _ (hmemst _ hx) with h | h <;> exact absurd h (by decide)
  have h4000 : "NVARCHAR(4000)" ∉ ((countsOf evid).map Prod.fst).filter
      (fun dt => strContains dt "NVARCHAR") := by
    intro hx
    rcases hrest _ (hmemst _ hx) with h | h <;> exact absurd h (by decide)
  have h255 : "NVARCHAR(255)" ∈ ((countsOf evid).map Prod.fst).filter
      (fun dt => strContains dt "NVARCHAR") := by
    rw [List.mem_filter]
    refine ⟨?_, by decide⟩
    simp only [countsOf, List.map_map, List.mem_map, Function.comp]
    exact ⟨"NVARCHAR(255)", mem_firstSeen.2 hm, rfl⟩
  rw [if_neg hMAX, if_neg h4000, if_pos h255]

/-- Witness for C2 amended: a blank value among INT classifications. -/
theorem c2_blank_contributes_witness :
    _detect_data_type "" = "NVARCHAR(255)" ∧
    resolveType ["INT", _detect_data_type "", "INT"] = "NVARCHAR(255)" := by
  have h := c2_blank_contributes "" ["INT", _detect_data_type "", "INT"] (by decide)
    (by simp) (by intro t ht; simp at ht; rcases ht with h | h | h <;> subst h <;> decide)
  exact h

/-! ### The most-frequent-type selection -/

theorem bestStep_cases (p q : String × Nat) : bestStep p q = q ∨ bestStep p q = p := by
  unfold bestStep
  split
  · exact Or.inl rfl
  · exact Or.inr rfl

theorem le_bestStep_left (p q : String × Nat) : p.2 ≤ (bestStep p q).2 := by
  unfold bestStep
  split <;> omega

theorem le_bestStep_right (p q : String × Nat) : q.2 ≤ (bestStep p q).2 := by
  unfold bestStep
  split <;> omega

theorem foldBest_mem (ps : List (String × Nat)) :
    ∀ p, ps.foldl bestStep p ∈ p :: ps := by
  induction ps with
  | nil => intro p; simp
  | cons q qs ih =>
    intro p
    simp only [List.foldl_cons]
    have h := ih (bestStep p q)
    rcases List.mem_cons.1 h with h1 | h1
    · rcases bestStep_cases p q with h2 | h2 <;> rw [h1, h2] <;> simp
    · simp [List.mem_cons_of_mem, h1]

theorem foldBest_ge_init (ps : List (String × Nat)) :
    ∀ p, p.2 ≤ (ps.foldl bestStep p).2 := by
  induction ps with
  | nil => intro p; simp
  | cons q qs ih =>
    intro p
    simp only [List.foldl_cons]
    exact le_trans (le_bestStep_left p q) (ih (bestStep p q))

theorem foldBest_ge (ps : List (String × Nat)) :
    ∀ p, ∀ q ∈ p :: ps, q.2 ≤ (ps.foldl bestStep p).2 := by
  induction ps with
  | nil =>
    intro p q hq
    rw [List.mem_singleton] at hq
    rw [hq]
    simp
  | cons r rs ih =>
    intro p q hq
    simp only [List.foldl_cons]
    rcases List.mem_cons.1 hq with rfl | hq1
    · exact le_trans (le_bestStep_left q r) (foldBest_ge_init rs (bestStep q r))
    · rcases List.mem_cons.1 hq1 with rfl | hq2
      · exact le_trans (le_bestStep_right p q) (foldBest_ge_init rs (bestStep p q))
      · exact ih (bestStep p r) q (List.mem_cons_of_mem _ hq2)

/-- Every classification produced by `_detect_data_type` is one of the
ten type tags. -/
theorem detect_range (v : String) :
    _detect_data_type v ∈ ["INT", "BIGINT", "DECIMAL(18,4)", "DATE", "DATETIME2", "BIT",
      "NVARCHAR(50)", "NVARCHAR(255)", "NVARCHAR(4000)", "NVARCHAR(MAX)"] := by
  unfold _detect_data_type
  dsimp only
  split_ifs <;> simp

/-- C3: per-column type resolution over classifications produced by
`_detect_data_type`. If any classification is a string type, the
resolved type is the largest observed string type under
MAX > 4000 > 255 > 50, regardless of how frequent the non-string
classifications are; if none is a string type, the resolved type is a
most frequent classification. -/
theorem c3_resolution (types : List String)
    (hrange : ∀ t ∈ types, ∃ v, _detect_data_type v = t)
    (hne : types ≠ []) :
    ((∃ t ∈ types, t ∈ string_type_tags) → resolveType types = largestStringType types) ∧
    ((∀ t ∈ types, t ∉ string_type_tags) →
      resolveType types ∈ types ∧
      ∀ u ∈ types, types.count u ≤ types.count (resolveType types)) := by
  obtain ⟨t0, ts, rfl⟩ : ∃ t0 ts, types = t0 :: ts := by
    cases types with
    | nil => exact absurd rfl hne
    | cons a l => exact ⟨a, l, rfl⟩
  have hkeys : ∀ k ∈ (countsOf (t0 :: ts)).map Prod.fst, k ∈ t0 :: ts := by
    intro k hk
    simp only [countsOf, List.map_map, List.mem_map, Function.comp] at hk
    obtain ⟨k', hk', hkeq⟩ := hk
    rw [← hkeq]
    exact mem_firstSeen.1 hk'
  have hkeys' : ∀ k, k ∈ t0 :: ts → (k, (t0 :: ts).count k) ∈ countsOf (t0 :: ts) := by
    intro k hk
    simp only [countsOf, List.mem_map]
    exact ⟨k, mem_firstSeen.2 hk, rfl⟩
  have hnonempty : ((countsOf (t0 :: ts)).isEmpty = true) = False := by
    simp only [List.isEmpty_eq_true]
    exact eq_false countsOf_ne_nil
  constructor
  · rintro ⟨tg, htgmem, htgtag⟩
    have hany : (countsOf (t0 :: ts)).any (fun p => strContains p.1 "NVARCHAR") = true := by
      rw [List.any_eq_true]
      refine ⟨(tg, (t0 :: ts).count tg), hkeys' tg htgmem, ?_⟩
      show strContains tg "NVARCHAR" = true
      simp only [string_type_tags, List.mem_cons, List.not_mem_nil, or_false] at htgtag
      rcases htgtag with rfl | rfl | rfl | rfl <;> decide
    have hmemiff : ∀ x : String, strContains x "NVARCHAR" = true →
        (x ∈ ((countsOf (t0 :: ts)).map Prod.fst).filter
          (fun dt => strContains dt "NVARCHAR") ↔ x ∈ t0 :: ts) := by
      intro x hx
      rw [List.mem_filter]
      constructor
      · rintro ⟨hmem, _⟩
        exact hkeys x hmem
      · intro hmem
        refine ⟨?_, hx⟩
        simp only [countsOf, List.map_map, List.mem_map, Function.comp]
        exact ⟨x, mem_firstSeen.2 hmem, rfl⟩
    unfold resolveType largestStringType
    rw [if_neg (by rw [hnonempty]; exact id), if_pos hany]
    by_cases hM : "NVARCHAR(MAX)" ∈ t0 :: ts
    · rw [if_pos ((hmemiff _ (by decide)).2 hM), if_pos hM]
    · rw [if_neg (fun hx => hM ((hmemiff _ (by decide)).1 hx)), if_neg hM]
      by_cases h4 : "NVARCHAR(4000)" ∈ t0 :: ts
      · rw [if_pos ((hmemiff _ (by decide)).2 h4), if_pos h4]
      · rw [if_neg (fun hx => h4 ((hmemiff _ (by decide)).1 hx)), if_neg h4]
        by_cases h2 : "NVARCHAR(255)" ∈ t0 :: ts
        · rw [if_pos ((hmemiff _ (by decide)).2 h2), if_pos h2]
        · rw [if_neg (fun hx => h2 ((hmemiff _ (by decide)).1 hx)), if_neg h2]
  · intro hnostr
    have hsix : ∀ t ∈ t0 :: ts, t ∈ ["INT", "BIGINT", "DECIMAL(18,4)", "DATE", "DATETIME2", "BIT"] := by
      intro t ht
      obtain ⟨v, hv⟩ := hrange t ht
      have h10 := detect_range v
      rw [hv] at h10
      have htag := hnostr t ht
      simp only [string_type_tags, List.mem_cons, List.not_mem_nil, or_false,
        not_or] at htag h10 ⊢
      tauto
    have hany : (countsOf (t0 :: ts)).any (fun p => strContains p.1 "NVARCHAR") = false := by
      rw [List.any_eq_false]
      intro p hp
      have hk := hkeys p.1 (List.mem_map.2 ⟨p, hp, rfl⟩)
      have h6 := hsix p.1 hk
      simp only [List.mem_cons, List.not_mem_nil, or_false] at h6
      rcases h6 with h | h | h | h | h | h <;> rw [h] <;> decide
    have hres : resolveType (t0 :: ts) = maxByCount (countsOf (t0 :: ts)) := by
      unfold resolveType
      rw [if_neg (by rw [hnonempty]; exact id), if_neg (by rw [hany]; decide)]
    obtain ⟨p0, ps, hc⟩ : ∃ p0 ps, countsOf (t0 :: ts) = p0 :: ps := by
      cases hcc : countsOf (t0 :: ts) with
      | nil => exact absurd hcc countsOf_ne_nil
      | cons a l => exact ⟨a, l, rfl⟩
    have hmax : maxByCount (countsOf (t0 :: ts)) = (ps.foldl bestStep p0).1 := by
      rw [hc]; rfl
    have hfmem : ps.foldl bestStep p0 ∈ countsOf (t0 :: ts) := by
      rw [hc]; exact foldBest_mem ps p0
    have hfentry : ∃ k, k ∈ t0 :: ts ∧ ps.foldl bestStep p0 = (k, (t0 :: ts).count k) := by
      have := hfmem
      simp only [countsOf, List.mem_map] at this
      obtain ⟨k, hk, hke⟩ := this
      exact ⟨k, mem_firstSeen.1 hk, hke.symm⟩
    obtain ⟨k, hkmem, hkeq⟩ := hfentry
    have hresk : resolveType (t0 :: ts) = k := by
      rw [hres, hmax, hkeq]
    constructor
    · rw [hresk]; exact hkmem
    · intro u hu
      rw [hresk]
      have humem : (u, (t0 :: ts).count u) ∈ p0 :: ps := by
        rw [← hc]; exact hkeys' u hu
      have := foldBest_ge ps p0 (u, (t0 :: ts).count u) humem
      rw [hkeq] at this
      exact this

/-- Witness for C3: a concrete mixed column (string wins) and a concrete
non-string column (most frequent wins). -/
theorem c3_resolution_witness :
    (resolveType ["INT", "INT", "NVARCHAR(50)"] = largestStringType ["INT", "INT", "NVARCHAR(50)"]) ∧
    (resolveType ["INT", "DATE", "INT"] ∈ ["INT", "DATE", "INT"] ∧
      ∀ u ∈ ["INT", "DATE", "INT"],
        List.count u ["INT", "DATE", "INT"] ≤
          List.count (resolveType ["INT", "DATE", "INT"]) ["INT", "DATE", "INT"]) := by
  constructor
  · exact (c3_resolution ["INT", "INT", "NVARCHAR(50)"]
      (by
        intro t ht
        simp only [List.mem_cons, List.not_mem_nil, or_false] at ht
        rcases ht with rfl | rfl | rfl
        · exact ⟨"7", by decide⟩
        · exact ⟨"7", by decide⟩
        · exact ⟨"abc", by decide⟩)
      (by simp)).1 ⟨"NVARCHAR(50)", by simp, by decide⟩
  · exact (c3_resolution ["INT", "DATE", "INT"]
      (by
        intro t ht
        simp only [List.mem_cons, List.not_mem_nil, or_false] at ht
        rcases ht with rfl | rfl | rfl
        · exact ⟨"7", by decide⟩
        · exact ⟨"2024-01-01", by decide⟩
        · exact ⟨"7", by decide⟩)
      (by simp)).2
      (by intro t ht; simp only [List.mem_cons, List.not_mem_nil, or_false] at ht
          rcases ht with rfl | rfl | rfl <;> decide)

/-- C7: the sampling loop classifies exactly the first `maxRows`
well-formed body rows — blank lines and rows whose field count differs
from the header are skipped without consuming the sample budget — and
therefore never more than `maxRows` rows. -/
theorem c7_sampling_bound (names : List String) (maxRows : Nat) (body : List String) :
    sampleRows names maxRows body =
      ((body.filter (wellFormedRow names)).take maxRows).map pipeVals ∧
    (sampleRows names maxRows body).length ≤ maxRows := by
  have main : ∀ (body : List String) (m : Nat),
      sampleRows names m body = ((body.filter (wellFormedRow names)).take m).map pipeVals := by
    intro body
    induction body with
    | nil => intro m; cases m <;> simp [sampleRows]
    | cons line rest ih =>
      intro m
      cases m with
      | zero => simp [sampleRows]
      | succ b =>
        by_cases h1 : pyStrip line = ""
        · have hwf : wellFormedRow names line = false := by
            simp [wellFormedRow, h1]
          simp [sampleRows, h1, hwf, ih]
        · by_cases h2 : (pipeVals line).length = names.length
          · have hwf : wellFormedRow names line = true := by
              simp [wellFormedRow, h1, h2]
            simp [sampleRows, h1, h2, hwf, ih]
          · have hwf : wellFormedRow names line = false := by
              simp [wellFormedRow, h1, h2]
            simp [sampleRows, h1, h2, hwf, ih]
  refine ⟨main body maxRows, ?_⟩
  rw [main body maxRows, List.length_map]
  exact List.length_take_le maxRows _

/-! ### The per-column output loop -/

theorem sanitize_error_msg {n : String} {e : String} (h : sanitizeCol n = .error e) :
    e = "string index out of range" := by
  cases hd : (pyCleanName n).data with
  | nil =>
    simp [sanitizeCol, hd] at h
    exact h.symm
  | cons c cs =>
    simp [sanitizeCol, hd] at h

theorem buildColumns_err (A : List String) (R : List (List String)) :
    ∀ l : List String, "" ∈ l → buildColumns A R l = .error "string index out of range" := by
  intro l
  induction l with
  | nil => intro h; cases h
  | cons n ns ih =>
    intro h
    rcases List.mem_cons.1 h with hn | hmem
    · rw [← hn]
      rfl
    · cases hs : sanitizeCol n with
      | error e =>
        have he := sanitize_error_msg hs
        simp [buildColumns, hs, he]
      | ok c =>
        simp [buildColumns, hs, ih hmem]

theorem buildColumns_ok (A : List String) (R : List (List String)) :
    ∀ (l : List String) (cols : List (String × String)),
      buildColumns A R l = .ok cols →
      cols.length = l.length ∧
      ∀ k, k < l.length →
        ∃ cn, sanitizeCol (l.getD k "") = .ok cn ∧
          cols.getD k ("", "") =
            (cn, resolveType (columnEvidence A R (l.getD k ""))) := by
  intro l
  induction l with
  | nil =>
    intro cols h
    simp only [buildColumns] at h
    cases h
    exact ⟨rfl, fun k hk => absurd hk (by simp)⟩
  | cons n ns ih =>
    intro cols h
    simp only [buildColumns] at h
    cases hs : sanitizeCol n with
    | error e => rw [hs] at h; cases h
    | ok c =>
      rw [hs] at h
      cases hb : buildColumns A R ns with
      | error e => rw [hb] at h; cases h
      | ok rest =>
        rw [hb] at h
        cases h
        obtain ⟨hlen, hspec⟩ := ih rest hb
        refine ⟨by simp [hlen], ?_⟩
        intro k hk
        cases k with
        | zero => exact ⟨c, hs, rfl⟩
        | succ k' =>
          have hk' : k' < ns.length := by simp at hk; omega
          obtain ⟨cn, hcn, hco⟩ := hspec k' hk'
          exact ⟨cn, hcn, hco⟩

/-- C8: a header containing an empty column name (for example from a
trailing or doubled delimiter) makes the sanitization step index into
an empty string; the analysis fails with the IndexError and
`generate_create_table_sql` returns the degraded fallback with the
`-- ERROR:` marker instead of an inferred schema. -/
theorem c8_empty_header_name (lines : List String) (p t : String)
    (hne : pyStrip (lines.headD "") ≠ "")
    (hmem : "" ∈ headerNames lines) :
    _analyze_column_data_types (some lines) 100 = .error "string index out of range" ∧
    generate_create_table_sql (some lines) p t =
      createTableFallback p (applySrc t) "string index out of range" ∧
    containsStr (generate_create_table_sql (some lines) p t) "-- ERROR:" := by
  have h1 : _analyze_column_data_types (some lines) 100 = .error "string index out of range" := by
    unfold _analyze_column_data_types
    dsimp only
    rw [if_neg hne]
    exact buildColumns_err _ _ _ hmem
  have h2 := gen_ct_error (some lines) p t _ h1
  exact ⟨h1, h2, by rw [h2]; exact ctf_contains_ERROR p (applySrc t) _⟩

/-- Witness for C8: the doubled delimiter in header a||b yields an empty
middle column name. -/
theorem c8_empty_header_name_witness :
    pyStrip (["a||b", "1|2|3"].headD "") ≠ "" ∧
    "" ∈ headerNames ["a||b", "1|2|3"] ∧
    _analyze_column_data_types (some ["a||b", "1|2|3"]) 100 =
      .error "string index out of range" ∧
    containsStr (generate_create_table_sql (some ["a||b", "1|2|3"]) "f.txt" "T") "-- ERROR:" := by
  have h := c8_empty_header_name ["a||b", "1|2|3"] "f.txt" "T" (by decide) (by decide)
  exact ⟨by decide, by decide, h.1, h.2.2⟩

/-- C9: classification lists are keyed by the raw column name, so two
header columns carrying the same name share one evidence pool: both
still appear in the output (one entry per header position, in order),
and each receives the type resolved from the pooled evidence of all
positions carrying that name — hence identical types. -/
theorem c9_duplicate_header (lines : List String) (maxRows i j : Nat)
    (cols : List (String × String))
    (hok : _analyze_column_data_types (some lines) maxRows = .ok cols)
    (hi : i < (headerNames lines).length) (hj : j < (headerNames lines).length)
    (heq : (headerNames lines).getD i "" = (headerNames lines).getD j "") :
    cols.length = (headerNames lines).length ∧
    (cols.getD i ("", "")).2 =
      resolveType (columnEvidence (headerNames lines) (sampledOf lines maxRows)
        ((headerNames lines).getD i "")) ∧
    (cols.getD i ("", "")).2 = (cols.getD j ("", "")).2 := by
  have hb : buildColumns (headerNames lines) (sampledOf lines maxRows) (headerNames lines) =
      .ok cols := by
    unfold _analyze_column_data_types at hok
    dsimp only at hok
    by_cases hh : pyStrip (lines.headD "") = ""
    · rw [if_pos hh] at hok; cases hok
    · rw [if_neg hh] at hok; exact hok
  obtain ⟨hlen, hspec⟩ := buildColumns_ok _ _ _ _ hb
  obtain ⟨ci, hci, hcieq⟩ := hspec i hi
  obtain ⟨cj, hcj, hcjeq⟩ := hspec j hj
  refine ⟨hlen, ?_, ?_⟩
  · rw [hcieq]
  · rw [hcieq, hcjeq, heq]

/-- Witness for C9: the file with duplicated header name x|x; both
columns resolve to NVARCHAR(50), pooled from the INT of row value 1
and the string classification of abc. -/
theorem c9_duplicate_header_witness :
    _analyze_column_data_types (some ["x|x", "1|abc"]) 100 =
      .ok [("x", "NVARCHAR(50)"), ("x", "NVARCHAR(50)")] ∧
    ([("x", "NVARCHAR(50)"), ("x", "NVARCHAR(50)")].getD 0 ("", "")).2 =
      ([("x", "NVARCHAR(50)"), ("x", "NVARCHAR(50)")].getD 1 ("", "")).2 := by
  have h := c9_duplicate_header ["x|x", "1|abc"] 100 0 1
    [("x", "NVARCHAR(50)"), ("x", "NVARCHAR(50)")] rfl (by decide) (by decide) (by decide)
  exact ⟨rfl, h.2.2⟩

/-- C5 counterexample: a CSV dictionary row whose source field is a
single space is *not* skipped — truthiness is checked before
trimming — and yields a returned mapping whose source name is empty
after trimming. -/
theorem c5_counterexample :
    _parse_mapping_file (some (fun _ =>
      .ok ["SGE Column Name,English Column Name,Field type", " ,Target,string"])) =
      .ok [{ spanish_name := "", english_name := "Target", field_type := "string" }] :=
  rfl

/-- C5 amended: a pipe row with fewer than 3 fields is skipped, and a row
is skipped when a resolved source/target field is missing or empty
*before* trimming; every returned mapping stores the trim of a
non-empty resolved field (so a whitespace-only CSV field survives and
trims to the empty string), and the declared type defaults to the
String marker exactly when the resolved type field is missing or
empty. -/
theorem c5_row_tolerance (header row hdr2 : List String) (line : String) :
    ((pipeVals line).length < 3 → processPipeRow hdr2 line = none) ∧
    (∀ m, processCsvRow header row = some m →
      pyTruthy (resolvedSpanishCsv header row) = true ∧
      pyTruthy (resolvedEnglishCsv header row) = true ∧
      m.spanish_name = pyStrip ((resolvedSpanishCsv header row).getD "") ∧
      m.english_name = pyStrip ((resolvedEnglishCsv header row).getD "") ∧
      (pyTruthy (resolvedTypeCsv header row) = false → m.field_type = "String")) := by
  constructor
  · intro hlt
    unfold processPipeRow
    rw [if_neg (by omega)]
  · intro m hm
    unfold processCsvRow at hm
    dsimp only at hm
    split at hm
    · rename_i hcond
      rw [Bool.and_eq_true] at hcond
      cases hm
      refine ⟨hcond.1, hcond.2, rfl, rfl, ?_⟩
      intro hft
      simp [hft]
    · cases hm

/-- Witness for C5 amended: a short pipe row is skipped, and a normal CSV
row resolves as described. -/
theorem c5_row_tolerance_witness :
    processPipeRow ["h"] "x|y" = none ∧
    pyTruthy (resolvedSpanishCsv
      ["SGE Column Name", "English Column Name", "Field type"]
      ["Nombre", "Full Name", "string"]) = true := by
  have h1 := (c5_row_tolerance ["SGE Column Name", "English Column Name", "Field type"]
    ["Nombre", "Full Name", "string"] ["h"] "x|y").1 (by decide)
  have h2 := (c5_row_tolerance ["SGE Column Name", "English Column Name", "Field type"]
    ["Nombre", "Full Name", "string"] ["h"] "x|y").2
    { spanish_name := "Nombre", english_name := "Full Name", field_type := "string" } rfl
  exact ⟨h1, h2.1⟩

/-- C10: the mappings accumulator is not cleared between encoding
attempts: when the first encoding lazily decodes a prefix of a
CSV-format dictionary, appends its parsed rows and then hits a decode
error, and a later encoding decodes the whole file, the returned list
is the prefix rows followed by the full parse — the prefix rows are
duplicated ahead of it. -/
theorem c10_phantom_rows (decode : String → DecodeResult) (l1 l2 : String)
    (ls1 ls2 : List String)
    (h1 : decode "utf-8" = .truncated (l1 :: ls1))
    (hc1 : isCsvFormat l1 = true)
    (h2 : decode "utf-8-sig" = .ok (l2 :: ls2))
    (hc2 : isCsvFormat l2 = true)
    (hne : parseCsvLines (l1 :: ls1) ++ parseCsvLines (l2 :: ls2) ≠ []) :
    _parse_mapping_file (some decode) =
      .ok (parseCsvLines (l1 :: ls1) ++ parseCsvLines (l2 :: ls2)) := by
  unfold _parse_mapping_file encodings_to_try
  dsimp only
  rw [parseAttempts.eq_def]
  dsimp only
  rw [h1]
  dsimp only
  rw [if_pos hc1, List.nil_append, parseAttempts.eq_def]
  dsimp only
  rw [h2]
  dsimp only
  rw [if_pos hc2]
  rw [if_neg (show ¬((parseCsvLines (l1 :: ls1) ++ parseCsvLines (l2 :: ls2)).isEmpty = true) from
    fun hcontra => hne (List.isEmpty_eq_true.1 hcontra))]

/-- Witness for C10: utf-8 decodes the header and one row then fails;
utf-8-sig decodes the whole file; the first row appears twice. -/
theorem c10_phantom_rows_witness :
    _parse_mapping_file (some (fun enc =>
      if enc = "utf-8" then
        .truncated ["SGE Column Name,English Column Name,Field type", "A,B,string"]
      else
        .ok ["SGE Column Name,English Column Name,Field type", "A,B,string", "C,D,int"])) =
      .ok [{ spanish_name := "A", english_name := "B", field_type := "string" },
           { spanish_name := "A", english_name := "B", field_type := "string" },
           { spanish_name := "C", english_name := "D", field_type := "int" }] := by
  have h := c10_phantom_rows
    (fun enc =>
      if enc = "utf-8" then
        .truncated ["SGE Column Name,English Column Name,Field type", "A,B,string"]
      else
        .ok ["SGE Column Name,English Column Name,Field type", "A,B,string", "C,D,int"])
    "SGE Column Name,English Column Name,Field type"
    "SGE Column Name,English Column Name,Field type"
    ["A,B,string"] ["A,B,string", "C,D,int"]
    rfl (by decide) rfl (by decide) (by decide)
  rw [h]
  rfl

end UvSqlTool

